import Mathlib

/-
Verification of the HumanCurve measurement pipeline.

Shallow embedding of the core measurement/statistics code:
  - src/lib/stats.ts        (erf, normalCDF, computePercentile, normalCurvePoints)
  - src/lib/measurements.ts (quality validators, scaling, averaging, circumference)
  - src/components/ShareCard.tsx, CameraView (capture-readiness state machine)

Modelling conventions:
  - JavaScript numbers are modelled as exact rationals (ℚ) in code that only
    performs field arithmetic and comparisons, and as real numbers (ℝ) in code
    that calls Math.exp / Math.sqrt / Math.PI.
  - Math.round x is ⌊x + 1/2⌋ (round half toward +∞), the JS semantics.
  - parseFloat(x.toFixed(d)) is ⌊x·10^d + 1/2⌋ / 10^d (the ES spec picks the
    larger candidate on ties).
  - A function that throws is modelled as returning an Option, with none for
    the thrown case.
-/

namespace HumanCurve

/-! ### src/lib/stats.ts -/

/-- JavaScript `Math.round`: round half toward positive infinity. -/
noncomputable def jsRound (x : ℝ) : ℤ := ⌊x + 1 / 2⌋

/-- JavaScript `parseFloat(x.toFixed(d))`: decimal rounding to `d` places. -/
noncomputable def jsToFixed (d : ℕ) (x : ℝ) : ℝ := (jsRound (x * 10 ^ d) : ℝ) / 10 ^ d

/-- Horner evaluation of the Abramowitz–Stegun polynomial from `erf`,
including the final `* t` of the source expression
`(((((a5 * t + a4) * t) + a3) * t + a2) * t + a1) * t`. -/
noncomputable def erfPoly (t : ℝ) : ℝ :=
  ((((1.061405429 * t - 1.453152027) * t + 1.421413741) * t - 0.284496736) * t
      + 0.254829592) * t

/-- Error function approximation from `stats.ts` (`p = 0.3275911`). -/
noncomputable def erf (x : ℝ) : ℝ :=
  let sign : ℝ := if 0 ≤ x then 1 else -1
  let ax := |x|
  let t := 1 / (1 + 0.3275911 * ax)
  let y := 1 - erfPoly t * Real.exp (-(ax * ax))
  sign * y

/-- Standard normal CDF from `stats.ts`. -/
noncomputable def normalCDF (z : ℝ) : ℝ := 0.5 * (1 + erf (z / Real.sqrt 2))

/-- Percentile (0–100) of a value given a normal reference distribution. -/
noncomputable def computePercentile (value mean stddev : ℝ) : ℤ :=
  if stddev ≤ 0 then 50
  else jsRound (normalCDF ((value - mean) / stddev) * 100)

/-- One `(x, y)` sample of the density curve produced by `normalCurvePoints`. -/
structure CurvePoint where
  x : ℝ
  y : ℝ

/-- Gaussian density samples over `[mean − 3.5σ, mean + 3.5σ]`, with
`x` rounded to 4 decimals and `y` to 6 decimals as in the source
(`parseFloat(x.toFixed(4))`, `parseFloat(y.toFixed(6))`). -/
noncomputable def normalCurvePoints (mean stddev : ℝ) (numPoints : ℕ) : List CurvePoint :=
  let minX := mean - 3.5 * stddev
  let maxX := mean + 3.5 * stddev
  let step := (maxX - minX) / ((numPoints : ℝ) - 1)
  (List.range numPoints).map fun i =>
    let x := minX + (i : ℝ) * step
    let exponent := -((x - mean) ^ 2) / (2 * stddev ^ 2)
    let y := 1 / (stddev * Real.sqrt (2 * Real.pi)) * Real.exp exponent
    { x := jsToFixed 4 x, y := jsToFixed 6 y }

/-! ### src/lib/scanMode.ts -/

/-- User-facing scan modes. -/
inductive ScanMode where
  | face
  | upperBody
  | fullBody
  | chest
deriving DecidableEq

/-- Camera modes: scan modes plus the two internal chest-capture poses. -/
inductive CameraMode where
  | face
  | upperBody
  | fullBody
  | chest
  | chestFront
  | chestSide
deriving DecidableEq

/-! ### src/lib/measurements.ts -/

/-- A pose landmark: normalized coordinates with optional depth and
visibility score. -/
structure Landmark where
  x : ℚ
  y : ℚ
  z : Option ℚ := none
  visibility : Option ℚ := none
deriving DecidableEq

/-- Pixel-unit raw measurement record. -/
structure RawMeasurements where
  shoulderWidthPx : ℚ
  hipWidthPx : ℚ
  legLengthPx : ℚ
  torsoLengthPx : ℚ
  armLengthPx : ℚ
  wingspanPx : ℚ
  bodyHeightPx : ℚ
deriving DecidableEq

/-- Face-mode measurement record. -/
structure FaceMeasurements where
  earToEarPx : ℚ
  innerEyeSpacingPx : ℚ
  faceHeightPx : ℚ
  interocularRatio : ℚ
  facialWidthRatio : ℚ
deriving DecidableEq

/-- Centimeter-unit scaled measurement record. -/
structure Measurements where
  shoulderWidthCm : ℚ
  hipWidthCm : ℚ
  legLengthCm : ℚ
  torsoLengthCm : ℚ
  armLengthCm : ℚ
  wingspanCm : ℚ
  shoulderToHipRatio : ℚ
  legToTorsoRatio : ℚ
  armspanToHeightRatio : ℚ
  scaleFactor : ℚ
  face : Option FaceMeasurements := none
  chestCircumferenceCm : Option ℚ := none
  waistCircumferenceCm : Option ℚ := none
  scanMode : Option ScanMode := none
deriving DecidableEq

def VISIBILITY_THRESHOLD : ℚ := 0.5

def FULL_BODY_LANDMARKS : List ℕ := [0, 11, 12, 23, 24, 27, 28]

def UPPER_BODY_LANDMARKS : List ℕ := [11, 12, 23, 24, 15, 16]

def FACE_LANDMARKS : List ℕ := [0, 7, 8, 1, 4]

/-- Visibility test `lm.visibility === undefined || lm.visibility >= 0.5`. -/
def isVisible (lm : Landmark) : Bool :=
  match lm.visibility with
  | none => true
  | some v => decide (VISIBILITY_THRESHOLD ≤ v)

/-- Quality verdict `{ valid, reason }`. -/
structure FrameQuality where
  valid : Bool
  reason : String
deriving DecidableEq

/-- TS `landmarks[idx]` (possibly `undefined` past the end). -/
def lmAt (landmarks : List Landmark) (idx : ℕ) : Option Landmark := landmarks[idx]?

/-- The per-mode visibility loop
`for (const idx of IDXS) if (!lm || !isVisible(lm)) return reject`:
true exactly when no index fails, in which case the loop falls through. -/
def visOk (landmarks : List Landmark) (idxs : List ℕ) : Bool :=
  idxs.all fun idx =>
    match lmAt landmarks idx with
    | none => false
    | some lm => isVisible lm

/-- TS `landmarks[idx]` at an index guaranteed present by an earlier
visibility pass (the default is never reached there). -/
def lmD (landmarks : List Landmark) (idx : ℕ) : Landmark :=
  (lmAt landmarks idx).getD { x := 0, y := 0 }

def checkFaceQuality (landmarks : List Landmark) : FrameQuality :=
  if !visOk landmarks FACE_LANDMARKS then
    { valid := false, reason := "Face not fully visible" }
  else
    let nose := lmD landmarks 0
    let leftEar := lmD landmarks 7
    let rightEar := lmD landmarks 8
    let faceWidth := |leftEar.x - rightEar.x|
    if faceWidth < 0.12 then { valid := false, reason := "Move closer to the camera" }
    else if 0.70 < faceWidth then { valid := false, reason := "Move back from the camera" }
    else if nose.x < 0.12 ∨ 0.88 < nose.x then
      { valid := false, reason := "Centre your face in frame" }
    else if nose.y < 0.08 then { valid := false, reason := "Tilt face down slightly" }
    else if 0.88 < nose.y then { valid := false, reason := "Tilt face up slightly" }
    else { valid := true, reason := "Good — hold still" }

def checkUpperBodyQuality (landmarks : List Landmark) : FrameQuality :=
  if !visOk landmarks UPPER_BODY_LANDMARKS then
    { valid := false, reason := "Upper body not fully visible" }
  else
    let leftShoulder := lmD landmarks 11
    let rightShoulder := lmD landmarks 12
    let leftHip := lmD landmarks 23
    let rightHip := lmD landmarks 24
    let margin : ℚ := 0.05
    let shoulderY := min leftShoulder.y rightShoulder.y
    if shoulderY < margin then { valid := false, reason := "Move back — shoulders cut off" }
    else
      let hipY := max leftHip.y rightHip.y
      if 1 - margin < hipY then { valid := false, reason := "Move back — hips cut off" }
      else
        let torsoFraction := hipY - shoulderY
        if torsoFraction < 0.22 then { valid := false, reason := "Move closer to the camera" }
        else { valid := true, reason := "Good framing — hold still" }

def checkSideProfileQuality (landmarks : List Landmark) : FrameQuality :=
  if !visOk landmarks UPPER_BODY_LANDMARKS then
    { valid := false, reason := "Upper body not fully visible" }
  else
    let nose := lmD landmarks 0
    let leftShoulder := lmD landmarks 11
    let rightShoulder := lmD landmarks 12
    let leftHip := lmD landmarks 23
    let rightHip := lmD landmarks 24
    let margin : ℚ := 0.05
    if min leftShoulder.y rightShoulder.y < margin then
      { valid := false, reason := "Move back — shoulders cut off" }
    else if 1 - margin < max leftHip.y rightHip.y then
      { valid := false, reason := "Move back — hips cut off" }
    else
      let shoulderMidX := (leftShoulder.x + rightShoulder.x) / 2
      let noseDeviation := |nose.x - shoulderMidX|
      if noseDeviation < 0.08 then
        { valid := false, reason := "Turn sideways — show your profile" }
      else if |leftShoulder.x - rightShoulder.x| < 0.02 then
        { valid := false, reason := "Rotate slightly so both shoulders are detected" }
      else { valid := true, reason := "Good profile — hold still" }

def checkFullBodyQuality (landmarks : List Landmark) : FrameQuality :=
  if !visOk landmarks FULL_BODY_LANDMARKS then
    { valid := false, reason := "Key body parts not visible" }
  else
    let margin : ℚ := 0.08
    let nose := lmD landmarks 0
    let leftAnkle := lmD landmarks 27
    let rightAnkle := lmD landmarks 28
    if nose.y < margin then { valid := false, reason := "Move back — head cut off" }
    else if 1 - margin < max leftAnkle.y rightAnkle.y then
      { valid := false, reason := "Move back — feet cut off" }
    else
      let bodyHeightFraction := max leftAnkle.y rightAnkle.y - nose.y
      if bodyHeightFraction < 0.4 then { valid := false, reason := "Move closer — too far away" }
      else if 0.98 < bodyHeightFraction then { valid := false, reason := "Move back — too close" }
      else { valid := true, reason := "Good framing — hold still" }

/-- Mode dispatch of the quality validator. `frameWidth`/`frameHeight` are
accepted, as in the source, but not used by any branch. -/
def checkLandmarkQualityForMode (landmarks : List Landmark) (frameWidth frameHeight : ℚ)
    (mode : CameraMode) : FrameQuality :=
  if landmarks.length < 33 then { valid := false, reason := "Body not detected" }
  else
    match mode with
    | CameraMode.face => checkFaceQuality landmarks
    | CameraMode.upperBody => checkUpperBodyQuality landmarks
    | CameraMode.chestFront => checkUpperBodyQuality landmarks
    | CameraMode.chestSide => checkSideProfileQuality landmarks
    | _ => checkFullBodyQuality landmarks

/-- JavaScript `Math.round` on exact rationals. -/
def jsRoundQ (x : ℚ) : ℤ := ⌊x + 1 / 2⌋

/-- Source helper `r`: round to 1 decimal. -/
def r (n : ℚ) : ℚ := (jsRoundQ (n * 10) : ℚ) / 10

/-- Source helper `r2`: round to 2 decimals. -/
def r2 (n : ℚ) : ℚ := (jsRoundQ (n * 100) : ℚ) / 100

def scaleMeasurements (raw : RawMeasurements) (userHeightCm : ℚ)
    (mode : ScanMode := ScanMode.fullBody) : Measurements :=
  let effectiveHeight := if mode = ScanMode.upperBody then userHeightCm * 0.56 else userHeightCm
  let scaleFactor := if 0 < raw.bodyHeightPx then effectiveHeight / raw.bodyHeightPx else 1
  let shoulderWidthCm := r (raw.shoulderWidthPx * scaleFactor)
  let hipWidthCm := r (raw.hipWidthPx * scaleFactor)
  let legLengthCm := r (raw.legLengthPx * scaleFactor)
  let torsoLengthCm := r (raw.torsoLengthPx * scaleFactor)
  let armLengthCm := r (raw.armLengthPx * scaleFactor)
  let wingspanCm := r (raw.wingspanPx * scaleFactor)
  { shoulderWidthCm := shoulderWidthCm
    hipWidthCm := hipWidthCm
    legLengthCm := legLengthCm
    torsoLengthCm := torsoLengthCm
    armLengthCm := armLengthCm
    wingspanCm := wingspanCm
    shoulderToHipRatio := if 0 < hipWidthCm then r2 (shoulderWidthCm / hipWidthCm) else 0
    legToTorsoRatio := if 0 < torsoLengthCm then r2 (legLengthCm / torsoLengthCm) else 0
    armspanToHeightRatio := if 0 < userHeightCm then r2 (wingspanCm / userHeightCm) else 0
    scaleFactor := scaleFactor
    scanMode := some mode }

/-- The all-zero accumulator the averaging loop starts from. -/
def zeroRaw : RawMeasurements :=
  { shoulderWidthPx := 0, hipWidthPx := 0, legLengthPx := 0
    torsoLengthPx := 0, armLengthPx := 0, wingspanPx := 0, bodyHeightPx := 0 }

/-- Field-wise accumulation step of the `for (const f of frames)` loop. -/
def addRaw (acc f : RawMeasurements) : RawMeasurements :=
  { shoulderWidthPx := acc.shoulderWidthPx + f.shoulderWidthPx
    hipWidthPx := acc.hipWidthPx + f.hipWidthPx
    legLengthPx := acc.legLengthPx + f.legLengthPx
    torsoLengthPx := acc.torsoLengthPx + f.torsoLengthPx
    armLengthPx := acc.armLengthPx + f.armLengthPx
    wingspanPx := acc.wingspanPx + f.wingspanPx
    bodyHeightPx := acc.bodyHeightPx + f.bodyHeightPx }

/-- Field-wise mean of raw frames; `throw new Error("No frames to average")`
on an empty input is modelled as `none`. -/
def averageRawMeasurements (frames : List RawMeasurements) : Option RawMeasurements :=
  if frames.length = 0 then none
  else
    let sum := frames.foldl addRaw zeroRaw
    let n : ℚ := frames.length
    some
      { shoulderWidthPx := sum.shoulderWidthPx / n
        hipWidthPx := sum.hipWidthPx / n
        legLengthPx := sum.legLengthPx / n
        torsoLengthPx := sum.torsoLengthPx / n
        armLengthPx := sum.armLengthPx / n
        wingspanPx := sum.wingspanPx / n
        bodyHeightPx := sum.bodyHeightPx / n }

/-- Accumulation step of the `frames.reduce` call. -/
def addFace (acc f : FaceMeasurements) : FaceMeasurements :=
  { earToEarPx := acc.earToEarPx + f.earToEarPx
    innerEyeSpacingPx := acc.innerEyeSpacingPx + f.innerEyeSpacingPx
    faceHeightPx := acc.faceHeightPx + f.faceHeightPx
    interocularRatio := acc.interocularRatio + f.interocularRatio
    facialWidthRatio := acc.facialWidthRatio + f.facialWidthRatio }

/-- Field-wise mean of face frames (ratios re-rounded to 3 decimals);
the empty-input throw is modelled as `none`. -/
def averageFaceMeasurements (frames : List FaceMeasurements) : Option FaceMeasurements :=
  if frames.length = 0 then none
  else
    let n : ℚ := frames.length
    let sum := frames.foldl addFace
      { earToEarPx := 0, innerEyeSpacingPx := 0, faceHeightPx := 0
        interocularRatio := 0, facialWidthRatio := 0 }
    some
      { earToEarPx := sum.earToEarPx / n
        innerEyeSpacingPx := sum.innerEyeSpacingPx / n
        faceHeightPx := sum.faceHeightPx / n
        interocularRatio := (jsRoundQ (sum.interocularRatio / n * 1000) : ℚ) / 1000
        facialWidthRatio := (jsRoundQ (sum.facialWidthRatio / n * 1000) : ℚ) / 1000 }

/-- Ramanujan ellipse-circumference approximation from `measurements.ts`. -/
noncomputable def computeChestCircumference (semiWidthCm semiDepthCm : ℝ) : ℝ :=
  if semiWidthCm ≤ 0 ∨ semiDepthCm ≤ 0 then 0
  else
    let a := semiWidthCm
    let b := semiDepthCm
    let h := (a - b) ^ 2 / (a + b) ^ 2
    (jsRound (Real.pi * (a + b) * (1 + 3 * h / (10 + Real.sqrt (4 - 3 * h))) * 10) : ℝ) / 10

/-- Waist circumference via the same ellipse approximation. -/
noncomputable def computeWaistCircumference (frontHipWidthCm sideDepthCm : ℝ) : ℝ :=
  computeChestCircumference (frontHipWidthCm * 0.88 / 2) (sideDepthCm / 2)

/-! ### src/components/ShareCard.tsx — CameraView capture state machine -/

def MAX_BUFFER : ℕ := 60

/-- Outcome of one processed frame, as consumed by the tick loop: the
mode-specific quality verdict together with the measurements extracted from
the detected landmarks (extraction itself is a separate pure computation and
orthogonal to the buffering/counter logic modelled here). `none` models
`processFrame` returning no detection result. -/
structure FrameResult where
  valid : Bool
  raw : RawMeasurements
  face : FaceMeasurements
deriving DecidableEq

/-- The mutable refs of one capture session: the two frame buffers,
`goodFrameCountRef`, and the `canCapture` flag. -/
structure CaptureState where
  rawFrameBuffer : List RawMeasurements
  faceFrameBuffer : List FaceMeasurements
  goodFrameCount : ℤ
  canCapture : Bool
deriving DecidableEq

/-- Session state before any frame is processed. -/
def initialCaptureState : CaptureState :=
  { rawFrameBuffer := [], faceFrameBuffer := [], goodFrameCount := 0, canCapture := false }

/-- One iteration of the `tick` detection loop (the state-updating part of
CameraView's `tick`): on no detection everything resets; on a valid frame the
extracted record is pushed (evicting the oldest entry past `MAX_BUFFER`) and
the counter rises by 1 capped at `requiredGoodFrames`; on an invalid frame
the counter drops by 2 floored at 0; `canCapture` is set when the counter
reaches the threshold and cleared when it falls below. -/
def tick (mode : CameraMode) (requiredGoodFrames : ℤ) (st : CaptureState)
    (result : Option FrameResult) : CaptureState :=
  match result with
  | none =>
    { rawFrameBuffer := [], faceFrameBuffer := [], goodFrameCount := 0, canCapture := false }
  | some fr =>
    if fr.valid then
      let st1 :=
        if mode = CameraMode.face then
          let buf := st.faceFrameBuffer ++ [fr.face]
          { st with faceFrameBuffer := if MAX_BUFFER < buf.length then buf.drop 1 else buf }
        else
          let buf := st.rawFrameBuffer ++ [fr.raw]
          { st with rawFrameBuffer := if MAX_BUFFER < buf.length then buf.drop 1 else buf }
      let c := min (st1.goodFrameCount + 1) requiredGoodFrames
      { st1 with goodFrameCount := c
                 canCapture := if requiredGoodFrames ≤ c then true else st1.canCapture }
    else
      let c := max 0 (st.goodFrameCount - 2)
      { st with goodFrameCount := c
                canCapture := if c < requiredGoodFrames then false else st.canCapture }

/-! ### Concrete fixtures used by witnesses -/

/-- A zero-valued face record (used as a dummy payload in state-machine
witnesses). -/
def zeroFace : FaceMeasurements :=
  { earToEarPx := 0, innerEyeSpacingPx := 0, faceHeightPx := 0
    interocularRatio := 0, facialWidthRatio := 0 }

/-- A 33-landmark frame whose nose sits at `y = 0.05` and every other
landmark at the frame centre, all with no visibility score. -/
def headCutOffLandmarks : List Landmark :=
  { x := 0.5, y := 0.05 } :: List.replicate 32 { x := 0.5, y := 0.5 }

/-- Sample raw frame for averaging witnesses. -/
def sampleRawA : RawMeasurements :=
  { shoulderWidthPx := 1, hipWidthPx := 2, legLengthPx := 3
    torsoLengthPx := 4, armLengthPx := 5, wingspanPx := 6, bodyHeightPx := 7 }

/-- Second sample raw frame for averaging witnesses. -/
def sampleRawB : RawMeasurements :=
  { shoulderWidthPx := 2, hipWidthPx := 3, legLengthPx := 4
    torsoLengthPx := 5, armLengthPx := 6, wingspanPx := 7, bodyHeightPx := 8 }

/-! ### Helper lemmas: capture state machine -/

theorem tick_valid_goodFrameCount (mode : CameraMode) (R : ℤ) (st : CaptureState)
    (fr : FrameResult) (hv : fr.valid = true) :
    (tick mode R st (some fr)).goodFrameCount = min (st.goodFrameCount + 1) R := by
  simp only [tick, hv, if_true]
  split <;> rfl

theorem tick_invalid_goodFrameCount (mode : CameraMode) (R : ℤ) (st : CaptureState)
    (fr : FrameResult) (hv : fr.valid = false) :
    (tick mode R st (some fr)).goodFrameCount = max 0 (st.goodFrameCount - 2) := by
  simp only [tick, hv, Bool.false_eq_true, if_false]

theorem tick_valid_canCapture (mode : CameraMode) (R : ℤ) (st : CaptureState)
    (fr : FrameResult) (hv : fr.valid = true) :
    (tick mode R st (some fr)).canCapture =
      if R ≤ min (st.goodFrameCount + 1) R then true else st.canCapture := by
  simp only [tick, hv, if_true]
  split <;> rfl

theorem tick_invalid_canCapture (mode : CameraMode) (R : ℤ) (st : CaptureState)
    (fr : FrameResult) (hv : fr.valid = false) :
    (tick mode R st (some fr)).canCapture =
      if max 0 (st.goodFrameCount - 2) < R then false else st.canCapture := by
  simp only [tick, hv, Bool.false_eq_true, if_false]

theorem tick_valid_rawBuffer (mode : CameraMode) (R : ℤ) (st : CaptureState)
    (fr : FrameResult) (hv : fr.valid = true) (hm : mode ≠ CameraMode.face) :
    (tick mode R st (some fr)).rawFrameBuffer =
      if MAX_BUFFER < (st.rawFrameBuffer ++ [fr.raw]).length
      then (st.rawFrameBuffer ++ [fr.raw]).drop 1 else st.rawFrameBuffer ++ [fr.raw] := by
  simp only [tick, hv, if_true, if_neg hm]

theorem tick_valid_faceBuffer (mode : CameraMode) (R : ℤ) (st : CaptureState)
    (fr : FrameResult) (hv : fr.valid = true) (hm : mode = CameraMode.face) :
    (tick mode R st (some fr)).faceFrameBuffer =
      if MAX_BUFFER < (st.faceFrameBuffer ++ [fr.face]).length
      then (st.faceFrameBuffer ++ [fr.face]).drop 1 else st.faceFrameBuffer ++ [fr.face] := by
  simp only [tick, hv, if_true, if_pos hm]

theorem tick_buffers_le (mode : CameraMode) (R : ℤ) (st : CaptureState)
    (result : Option FrameResult)
    (hr : st.rawFrameBuffer.length ≤ MAX_BUFFER)
    (hf : st.faceFrameBuffer.length ≤ MAX_BUFFER) :
    (tick mode R st result).rawFrameBuffer.length ≤ MAX_BUFFER ∧
      (tick mode R st result).faceFrameBuffer.length ≤ MAX_BUFFER := by
  cases result with
  | none => simp [tick]
  | some fr =>
    by_cases hv : fr.valid
    · by_cases hm : mode = CameraMode.face
      · refine ⟨?_, ?_⟩
        · simp only [tick, hv, if_true, if_pos hm]; exact hr
        · rw [tick_valid_faceBuffer mode R st fr hv hm]
          split <;> simp_all
      · refine ⟨?_, ?_⟩
        · rw [tick_valid_rawBuffer mode R st fr hv hm]
          split <;> simp_all
        · simp only [tick, hv, if_true, if_neg hm]; exact hf
    · have hv' : fr.valid = false := by simpa using hv
      simp only [tick, hv', Bool.false_eq_true, if_false]
      exact ⟨hr, hf⟩

theorem foldl_tick_buffers_le (mode : CameraMode) (R : ℤ) :
    ∀ (frames : List (Option FrameResult)) (st : CaptureState),
      st.rawFrameBuffer.length ≤ MAX_BUFFER → st.faceFrameBuffer.length ≤ MAX_BUFFER →
      (frames.foldl (tick mode R) st).rawFrameBuffer.length ≤ MAX_BUFFER ∧
        (frames.foldl (tick mode R) st).faceFrameBuffer.length ≤ MAX_BUFFER := by
  intro frames
  induction frames with
  | nil => intro st hr hf; exact ⟨hr, hf⟩
  | cons hd tl ih =>
    intro st hr hf
    have hstep := tick_buffers_le mode R st hd hr hf
    exact ih (tick mode R st hd) hstep.1 hstep.2

/-! ### Claim theorems -/

/-- C9: across every sequence of processed frames starting from the initial
session state, neither frame-averaging buffer ever holds more than
`MAX_BUFFER = 60` frames; and whenever a valid frame is appended to a full
buffer, the evicted frame is the oldest one (the buffer becomes its tail
followed by the new frame). -/
theorem buffer_bound_and_eviction (mode : CameraMode) (R : ℤ) :
    (∀ frames : List (Option FrameResult),
        (frames.foldl (tick mode R) initialCaptureState).rawFrameBuffer.length ≤ MAX_BUFFER ∧
        (frames.foldl (tick mode R) initialCaptureState).faceFrameBuffer.length ≤ MAX_BUFFER) ∧
    (∀ (st : CaptureState) (fr : FrameResult), fr.valid = true → mode ≠ CameraMode.face →
        st.rawFrameBuffer.length = MAX_BUFFER →
        (tick mode R st (some fr)).rawFrameBuffer = st.rawFrameBuffer.tail ++ [fr.raw]) ∧
    (∀ (st : CaptureState) (fr : FrameResult), fr.valid = true → mode = CameraMode.face →
        st.faceFrameBuffer.length = MAX_BUFFER →
        (tick mode R st (some fr)).faceFrameBuffer = st.faceFrameBuffer.tail ++ [fr.face]) := by
  refine ⟨?_, ?_, ?_⟩
  · intro frames
    exact foldl_tick_buffers_le mode R frames initialCaptureState (by simp [initialCaptureState])
      (by simp [initialCaptureState])
  · intro st fr hv hm hlen
    rw [tick_valid_rawBuffer mode R st fr hv hm]
    rw [if_pos (by simp [hlen])]
    rw [List.drop_append_of_le_length (by rw [hlen]; norm_num [MAX_BUFFER]), List.drop_one]
  · intro st fr hv hm hlen
    rw [tick_valid_faceBuffer mode R st fr hv hm]
    rw [if_pos (by simp [hlen])]
    rw [List.drop_append_of_le_length (by rw [hlen]; norm_num [MAX_BUFFER]), List.drop_one]

/-- C9 witness: a session of one valid frame keeps the buffer within bounds,
and appending to a full 60-frame buffer evicts exactly the oldest frame. -/
theorem buffer_bound_and_eviction_witness :
    (([some { valid := true, raw := sampleRawA, face := zeroFace }].foldl
        (tick CameraMode.fullBody 30) initialCaptureState).rawFrameBuffer.length ≤ MAX_BUFFER) ∧
    ((true : Bool) = true ∧ CameraMode.fullBody ≠ CameraMode.face ∧
      (List.replicate 60 sampleRawA).length = MAX_BUFFER) ∧
    (tick CameraMode.fullBody 30
        { rawFrameBuffer := List.replicate 60 sampleRawA, faceFrameBuffer := []
          goodFrameCount := 0, canCapture := false }
        (some { valid := true, raw := sampleRawB, face := zeroFace })).rawFrameBuffer =
      (List.replicate 60 sampleRawA).tail ++ [sampleRawB] := by
  refine ⟨((buffer_bound_and_eviction CameraMode.fullBody 30).1 _).1,
    ⟨rfl, by decide, by simp [MAX_BUFFER]⟩,
    (buffer_bound_and_eviction CameraMode.fullBody 30).2.1 _ _ rfl (by decide)
      (by simp [MAX_BUFFER])⟩

/-- C3 counterexample: a rejected frame at good-frame counter 1 leaves the
counter at 0, not at 1 − 2 = −1, so "each rejected frame decrements the
counter by 2" fails as stated (the decrement is floored at 0). -/
theorem tick_decrement_not_literal_two :
    (tick CameraMode.fullBody 30
        { rawFrameBuffer := [], faceFrameBuffer := [], goodFrameCount := 1, canCapture := false }
        (some { valid := false, raw := zeroRaw, face := zeroFace })).goodFrameCount ≠ 1 - 2 := by
  decide

/-- C3 (amended): each accepted frame raises the good-frame counter by 1
capped at `requiredGoodFrames`, each rejected frame lowers it by 2 floored at
0, and — provided the ready signal agreed with the counter before the frame —
after any processed frame the ready-to-capture signal holds exactly when the
counter has reached `requiredGoodFrames` (so it is entered the moment the
counter reaches the threshold and left the moment it falls below). -/
theorem tick_counter_and_ready (mode : CameraMode) (R : ℤ) (st : CaptureState)
    (hR : 0 < R) (hready : st.canCapture = true ↔ R ≤ st.goodFrameCount) :
    (∀ fr : FrameResult, fr.valid = true →
        (tick mode R st (some fr)).goodFrameCount = min (st.goodFrameCount + 1) R) ∧
    (∀ fr : FrameResult, fr.valid = false →
        (tick mode R st (some fr)).goodFrameCount = max 0 (st.goodFrameCount - 2)) ∧
    (∀ result : Option FrameResult,
        ((tick mode R st result).canCapture = true ↔
          R ≤ (tick mode R st result).goodFrameCount)) := by
  refine ⟨fun fr hv => tick_valid_goodFrameCount mode R st fr hv,
          fun fr hv => tick_invalid_goodFrameCount mode R st fr hv, ?_⟩
  intro result
  cases result with
  | none =>
    simp only [tick, initialCaptureState]
    constructor
    · intro h; exact absurd h (by simp)
    · intro h; omega
  | some fr =>
    by_cases hv : fr.valid = true
    · rw [tick_valid_goodFrameCount mode R st fr hv, tick_valid_canCapture mode R st fr hv]
      split
      · rename_i h; simp [h]
      · rw [hready]
        constructor <;> intro h <;> omega
    · have hv' : fr.valid = false := by simpa using hv
      rw [tick_invalid_goodFrameCount mode R st fr hv',
        tick_invalid_canCapture mode R st fr hv']
      split
      · constructor
        · intro h; exact absurd h (by simp)
        · intro h; omega
      · rw [hready]
        constructor <;> intro h <;> omega

/-- C3 witness: with threshold 30 and the initial session state, an accepted
frame moves the counter to `min (0 + 1) 30` and the ready signal still agrees
with the counter. -/
theorem tick_counter_and_ready_witness :
    ((0 : ℤ) < 30 ∧
      (initialCaptureState.canCapture = true ↔ (30 : ℤ) ≤ initialCaptureState.goodFrameCount)) ∧
    (tick CameraMode.fullBody 30 initialCaptureState
        (some { valid := true, raw := sampleRawA, face := zeroFace })).goodFrameCount =
      min (initialCaptureState.goodFrameCount + 1) 30 ∧
    ((tick CameraMode.fullBody 30 initialCaptureState
        (some { valid := true, raw := sampleRawA, face := zeroFace })).canCapture = true ↔
      (30 : ℤ) ≤ (tick CameraMode.fullBody 30 initialCaptureState
        (some { valid := true, raw := sampleRawA, face := zeroFace })).goodFrameCount) := by
  have h := tick_counter_and_ready CameraMode.fullBody 30 initialCaptureState (by decide)
    (by decide)
  exact ⟨⟨by decide, by decide⟩, h.1 _ rfl, h.2.2 _⟩

/-- C10: starting from a counter in `[0, requiredGoodFrames]`, the counter is
again in `[0, requiredGoodFrames]` after any processed frame: the rejection
penalty is clamped at 0 and the acceptance reward is clamped at the
threshold. -/
theorem goodFrameCount_in_range (mode : CameraMode) (R : ℤ) (st : CaptureState)
    (hR : 0 < R) (h0 : 0 ≤ st.goodFrameCount) (h1 : st.goodFrameCount ≤ R)
    (result : Option FrameResult) :
    0 ≤ (tick mode R st result).goodFrameCount ∧
      (tick mode R st result).goodFrameCount ≤ R := by
  cases result with
  | none => simp only [tick]; omega
  | some fr =>
    by_cases hv : fr.valid = true
    · rw [tick_valid_goodFrameCount mode R st fr hv]; omega
    · have hv' : fr.valid = false := by simpa using hv
      rw [tick_invalid_goodFrameCount mode R st fr hv']; omega

/-- C10 witness: with threshold 30 and counter 0, a rejected frame leaves the
counter inside `[0, 30]`. -/
theorem goodFrameCount_in_range_witness :
    ((0 : ℤ) < 30 ∧ (0 : ℤ) ≤ initialCaptureState.goodFrameCount ∧
      initialCaptureState.goodFrameCount ≤ 30) ∧
    (0 ≤ (tick CameraMode.fullBody 30 initialCaptureState
        (some { valid := false, raw := sampleRawA, face := zeroFace })).goodFrameCount ∧
      (tick CameraMode.fullBody 30 initialCaptureState
        (some { valid := false, raw := sampleRawA, face := zeroFace })).goodFrameCount ≤ 30) :=
  ⟨⟨by decide, by decide, by decide⟩,
    goodFrameCount_in_range CameraMode.fullBody 30 initialCaptureState (by decide) (by decide)
      (by decide) _⟩

/-- C5: both averaging functions signal an error on an empty frame sequence
(modelled as `none`), rather than returning any record at all — in
particular never a silently zero-filled one. -/
theorem average_empty_signals_error :
    averageRawMeasurements [] = none ∧ averageFaceMeasurements [] = none :=
  ⟨rfl, rfl⟩

/-- C4: `scaleMeasurements` uses effective height `userHeightCm × 0.56` in
upper-body mode and `userHeightCm` otherwise, sets
`scaleFactor = effectiveHeight / bodyHeightPx` when `bodyHeightPx > 0` and
`1` otherwise, and every length field of the output is the corresponding
pixel field times `scaleFactor` rounded to 1 decimal. -/
theorem scaleMeasurements_spec (raw : RawMeasurements) (userHeightCm : ℚ) (mode : ScanMode) :
    (scaleMeasurements raw userHeightCm mode).scaleFactor =
      (if 0 < raw.bodyHeightPx
        then (if mode = ScanMode.upperBody then userHeightCm * 0.56 else userHeightCm) /
          raw.bodyHeightPx
        else 1) ∧
    (scaleMeasurements raw userHeightCm mode).shoulderWidthCm =
      r (raw.shoulderWidthPx * (scaleMeasurements raw userHeightCm mode).scaleFactor) ∧
    (scaleMeasurements raw userHeightCm mode).hipWidthCm =
      r (raw.hipWidthPx * (scaleMeasurements raw userHeightCm mode).scaleFactor) ∧
    (scaleMeasurements raw userHeightCm mode).legLengthCm =
      r (raw.legLengthPx * (scaleMeasurements raw userHeightCm mode).scaleFactor) ∧
    (scaleMeasurements raw userHeightCm mode).torsoLengthCm =
      r (raw.torsoLengthPx * (scaleMeasurements raw userHeightCm mode).scaleFactor) ∧
    (scaleMeasurements raw userHeightCm mode).armLengthCm =
      r (raw.armLengthPx * (scaleMeasurements raw userHeightCm mode).scaleFactor) ∧
    (scaleMeasurements raw userHeightCm mode).wingspanCm =
      r (raw.wingspanPx * (scaleMeasurements raw userHeightCm mode).scaleFactor) :=
  ⟨rfl, rfl, rfl, rfl, rfl, rfl, rfl⟩

/-- C8: in full-body mode, a landmark set of at least 33 points whose
required full-body landmarks are all present and visible but whose nose sits
at `y = 0.05` is rejected with exactly "Move back — head cut off". -/
theorem fullBody_head_cut_off (landmarks : List Landmark) (w h : ℚ)
    (hlen : 33 ≤ landmarks.length)
    (hvis : visOk landmarks FULL_BODY_LANDMARKS = true)
    (hnose : (lmD landmarks 0).y = 0.05) :
    checkLandmarkQualityForMode landmarks w h CameraMode.fullBody =
      { valid := false, reason := "Move back — head cut off" } := by
  have h1 : ¬ landmarks.length < 33 := by omega
  simp only [checkLandmarkQualityForMode, if_neg h1]
  simp only [checkFullBodyQuality, hvis, Bool.not_true, Bool.false_eq_true, if_false]
  rw [if_pos (by rw [hnose]; norm_num)]

/-- C8 witness: a concrete 33-landmark frame with all required landmarks
visible and nose at `y = 0.05` is rejected with the head-cut-off reason. -/
theorem fullBody_head_cut_off_witness :
    (33 ≤ headCutOffLandmarks.length ∧
      visOk headCutOffLandmarks FULL_BODY_LANDMARKS = true ∧
      (lmD headCutOffLandmarks 0).y = 0.05) ∧
    checkLandmarkQualityForMode headCutOffLandmarks 640 480 CameraMode.fullBody =
      { valid := false, reason := "Move back — head cut off" } :=
  ⟨⟨by decide, by decide, by simp [headCutOffLandmarks, lmD, lmAt]⟩,
    fullBody_head_cut_off headCutOffLandmarks 640 480 (by decide) (by decide)
      (by simp [headCutOffLandmarks, lmD, lmAt])⟩

theorem foldl_addRaw_eq_sum (l : List RawMeasurements) (acc : RawMeasurements) :
    l.foldl addRaw acc =
      { shoulderWidthPx := acc.shoulderWidthPx + (l.map RawMeasurements.shoulderWidthPx).sum
        hipWidthPx := acc.hipWidthPx + (l.map RawMeasurements.hipWidthPx).sum
        legLengthPx := acc.legLengthPx + (l.map RawMeasurements.legLengthPx).sum
        torsoLengthPx := acc.torsoLengthPx + (l.map RawMeasurements.torsoLengthPx).sum
        armLengthPx := acc.armLengthPx + (l.map RawMeasurements.armLengthPx).sum
        wingspanPx := acc.wingspanPx + (l.map RawMeasurements.wingspanPx).sum
        bodyHeightPx := acc.bodyHeightPx + (l.map RawMeasurements.bodyHeightPx).sum } := by
  induction l generalizing acc with
  | nil => simp
  | cons hd tl ih =>
    simp only [List.foldl_cons, List.map_cons, List.sum_cons, ih, addRaw]
    simp [RawMeasurements.mk.injEq, add_assoc]

/-- C6: `averageRawMeasurements` returns the same result on every permutation
of its input, and averaging the two-element list `[a, a]` equals averaging
the one-element list `[a]`. -/
theorem averageRaw_perm_and_pair :
    (∀ (l l' : List RawMeasurements), l.Perm l' →
        averageRawMeasurements l = averageRawMeasurements l') ∧
    (∀ a : RawMeasurements, averageRawMeasurements [a, a] = averageRawMeasurements [a]) := by
  constructor
  · intro l l' hperm
    unfold averageRawMeasurements
    rw [hperm.length_eq]
    by_cases hl : l'.length = 0
    · simp [hl]
    · rw [if_neg hl, if_neg hl]
      rw [foldl_addRaw_eq_sum l zeroRaw, foldl_addRaw_eq_sum l' zeroRaw]
      rw [(hperm.map RawMeasurements.shoulderWidthPx).sum_eq,
        (hperm.map RawMeasurements.hipWidthPx).sum_eq,
        (hperm.map RawMeasurements.legLengthPx).sum_eq,
        (hperm.map RawMeasurements.torsoLengthPx).sum_eq,
        (hperm.map RawMeasurements.armLengthPx).sum_eq,
        (hperm.map RawMeasurements.wingspanPx).sum_eq,
        (hperm.map RawMeasurements.bodyHeightPx).sum_eq]
  · intro a
    simp only [averageRawMeasurements, List.length_cons, List.length_nil, List.foldl_cons,
      List.foldl_nil, addRaw, zeroRaw]
    norm_num

/-- C6 witness: two concrete frames averaged in either order give the same
record, and a concrete frame repeated twice averages to the same record as
that frame alone. -/
theorem averageRaw_perm_and_pair_witness :
    ([sampleRawA, sampleRawB].Perm [sampleRawB, sampleRawA]) ∧
    averageRawMeasurements [sampleRawA, sampleRawB] =
      averageRawMeasurements [sampleRawB, sampleRawA] ∧
    averageRawMeasurements [sampleRawA, sampleRawA] = averageRawMeasurements [sampleRawA] :=
  ⟨List.Perm.swap sampleRawB sampleRawA [],
    averageRaw_perm_and_pair.1 _ _ (List.Perm.swap sampleRawB sampleRawA []),
    averageRaw_perm_and_pair.2 sampleRawA⟩

/-! ### Helper lemmas: the percentile engine -/

theorem erfPoly_nonneg {t : ℝ} (h0 : 0 ≤ t) (h1 : t ≤ 1) : 0 ≤ erfPoly t := by
  have hA : (0 : ℝ) ≤ 0.254829592 - 0.284496736 * t + 0.1 * t ^ 2 := by
    nlinarith [sq_nonneg (t - 1.43)]
  have hB : (0 : ℝ) ≤ 1.321413741 - 1.453152027 * t + 1.061405429 * t ^ 2 := by
    nlinarith [sq_nonneg (t - 0.68)]
  have key : erfPoly t =
      t * (0.254829592 - 0.284496736 * t + 0.1 * t ^ 2) +
        t ^ 3 * (1.321413741 - 1.453152027 * t + 1.061405429 * t ^ 2) := by
    unfold erfPoly; ring
  rw [key]
  have h2 := mul_nonneg h0 hA
  have h3 := mul_nonneg (pow_nonneg h0 3) hB
  linarith

theorem erfPoly_le_one {t : ℝ} (h0 : 0 ≤ t) (h1 : t ≤ 1) : erfPoly t ≤ 1 := by
  have hS : (0 : ℝ) ≤ 0.999999999 + 0.745170407 * t + 1.029667143 * t ^ 2
      - 0.391746598 * t ^ 3 + 1.061405429 * t ^ 4 := by
    nlinarith [mul_nonneg (mul_nonneg h0 h0) (sub_nonneg.2 h1), sq_nonneg t,
      pow_nonneg h0 4]
  have key : 1 - erfPoly t =
      0.000000001 + (1 - t) * (0.999999999 + 0.745170407 * t + 1.029667143 * t ^ 2
        - 0.391746598 * t ^ 3 + 1.061405429 * t ^ 4) := by
    unfold erfPoly; ring
  nlinarith [mul_nonneg (sub_nonneg.2 h1) hS]

theorem erf_bounds (x : ℝ) : -1 ≤ erf x ∧ erf x ≤ 1 := by
  have hax : (0 : ℝ) ≤ |x| := abs_nonneg x
  have hd : (1 : ℝ) ≤ 1 + 0.3275911 * |x| := by nlinarith
  have ht0 : (0 : ℝ) ≤ 1 / (1 + 0.3275911 * |x|) := by positivity
  have ht1 : 1 / (1 + 0.3275911 * |x|) ≤ 1 := by
    rw [div_le_one (by linarith)]; linarith
  have hP0 := erfPoly_nonneg ht0 ht1
  have hP1 := erfPoly_le_one ht0 ht1
  have hE0 : (0 : ℝ) < Real.exp (-(|x| * |x|)) := Real.exp_pos _
  have hE1 : Real.exp (-(|x| * |x|)) ≤ 1 :=
    Real.exp_le_one_iff.2 (by nlinarith)
  have hprod0 : 0 ≤ erfPoly (1 / (1 + 0.3275911 * |x|)) * Real.exp (-(|x| * |x|)) :=
    mul_nonneg hP0 hE0.le
  have hprod1 : erfPoly (1 / (1 + 0.3275911 * |x|)) * Real.exp (-(|x| * |x|)) ≤ 1 :=
    le_trans (mul_le_of_le_one_right hP0 hE1) hP1
  show -1 ≤ (if 0 ≤ x then (1 : ℝ) else -1) *
      (1 - erfPoly (1 / (1 + 0.3275911 * |x|)) * Real.exp (-(|x| * |x|))) ∧
    (if 0 ≤ x then (1 : ℝ) else -1) *
      (1 - erfPoly (1 / (1 + 0.3275911 * |x|)) * Real.exp (-(|x| * |x|))) ≤ 1
  constructor <;> split <;> nlinarith

theorem normalCDF_bounds (z : ℝ) : 0 ≤ normalCDF z ∧ normalCDF z ≤ 1 := by
  have h := erf_bounds (z / Real.sqrt 2)
  unfold normalCDF
  constructor <;> nlinarith [h.1, h.2]

/-- C1: `computePercentile` returns 50 whenever `stddev ≤ 0`; for `stddev > 0`
it returns `round(normalCDF((value − mean)/stddev) × 100)`, an integer lying
in `[0, 100]`. -/
theorem computePercentile_spec (value mean stddev : ℝ) :
    (stddev ≤ 0 → computePercentile value mean stddev = 50) ∧
    (0 < stddev →
      computePercentile value mean stddev =
        jsRound (normalCDF ((value - mean) / stddev) * 100) ∧
      0 ≤ computePercentile value mean stddev ∧
      computePercentile value mean stddev ≤ 100) := by
  constructor
  · intro hle
    simp [computePercentile, hle]
  · intro hpos
    have hns : ¬ stddev ≤ 0 := not_le.2 hpos
    have hcdf := normalCDF_bounds ((value - mean) / stddev)
    refine ⟨by simp [computePercentile, hns], ?_, ?_⟩
    · simp only [computePercentile, if_neg hns, jsRound]
      exact Int.le_floor.2 (by push_cast; linarith [hcdf.1])
    · simp only [computePercentile, if_neg hns, jsRound]
      have hlt : ⌊normalCDF ((value - mean) / stddev) * 100 + 1 / 2⌋ < (101 : ℤ) :=
        Int.floor_lt.2 (by push_cast; linarith [hcdf.2])
      omega

/-- C1 witness: the degenerate branch at `stddev = −1` returns 50, and at
`stddev = 1` the result is the rounded scaled CDF, lying in `[0, 100]`. -/
theorem computePercentile_spec_witness :
    ((-1 : ℝ) ≤ 0 ∧ computePercentile 0 0 (-1) = 50) ∧
    ((0 : ℝ) < 1 ∧
      computePercentile 0 0 1 = jsRound (normalCDF ((0 - 0) / 1) * 100) ∧
      0 ≤ computePercentile 0 0 1 ∧ computePercentile 0 0 1 ≤ 100) :=
  ⟨⟨by norm_num, (computePercentile_spec 0 0 (-1)).1 (by norm_num)⟩,
    ⟨by norm_num, ((computePercentile_spec 0 0 1).2 (by norm_num)).1,
      ((computePercentile_spec 0 0 1).2 (by norm_num)).2.1,
      ((computePercentile_spec 0 0 1).2 (by norm_num)).2.2⟩⟩

/-- C7: on equal semi-axes `a = b > 0` the Ramanujan approximation collapses
to the circle circumference `2πa` rounded to 1 decimal, and whenever either
semi-axis is `≤ 0` the result is 0. -/
theorem chestCircumference_circle_and_guard (a b : ℝ) :
    (0 < a → computeChestCircumference a a = (jsRound (2 * Real.pi * a * 10) : ℝ) / 10) ∧
    (a ≤ 0 ∨ b ≤ 0 → computeChestCircumference a b = 0) := by
  constructor
  · intro ha
    have hno : ¬ (a ≤ 0 ∨ a ≤ 0) := by push_neg; exact ⟨ha, ha⟩
    show (if a ≤ 0 ∨ a ≤ 0 then (0 : ℝ)
      else (jsRound (Real.pi * (a + a) *
        (1 + 3 * ((a - a) ^ 2 / (a + a) ^ 2) /
          (10 + Real.sqrt (4 - 3 * ((a - a) ^ 2 / (a + a) ^ 2)))) * 10) : ℝ) / 10) =
      (jsRound (2 * Real.pi * a * 10) : ℝ) / 10
    rw [if_neg hno]
    have hh : (a - a) ^ 2 / (a + a) ^ 2 = 0 := by simp
    rw [hh]
    have h4 : Real.sqrt (4 - 3 * 0) = 2 := by
      rw [show (4 : ℝ) - 3 * 0 = 2 ^ 2 by norm_num, Real.sqrt_sq (by norm_num)]
    rw [h4]
    norm_num
    congr 2
    ring_nf
  · intro h
    simp [computeChestCircumference, h]

/-- C7 witness: `computeChestCircumference 1 1` is `2π` rounded to 1 decimal,
and a non-positive semi-axis yields 0. -/
theorem chestCircumference_witness :
    ((0 : ℝ) < 1 ∧
      computeChestCircumference 1 1 = (jsRound (2 * Real.pi * 1 * 10) : ℝ) / 10) ∧
    (((1 : ℝ) ≤ 0 ∨ (-1 : ℝ) ≤ 0) ∧ computeChestCircumference 1 (-1) = 0) :=
  ⟨⟨by norm_num, (chestCircumference_circle_and_guard 1 1).1 (by norm_num)⟩,
    ⟨Or.inr (by norm_num),
      (chestCircumference_circle_and_guard 1 (-1)).2 (Or.inr (by norm_num))⟩⟩

theorem jsToFixed_nonneg {d : ℕ} {v : ℝ} (hv : 0 ≤ v) : 0 ≤ jsToFixed d v := by
  unfold jsToFixed jsRound
  apply div_nonneg _ (by positivity)
  have h : (0 : ℤ) ≤ ⌊v * 10 ^ d + 1 / 2⌋ := by
    apply Int.le_floor.2
    push_cast
    have := mul_nonneg hv (pow_nonneg (by norm_num : (0 : ℝ) ≤ 10) d)
    linarith
  exact_mod_cast h

theorem jsToFixed_eq_zero {d : ℕ} {v : ℝ} (h0 : 0 ≤ v) (h1 : v * 10 ^ d < 1 / 2) :
    jsToFixed d v = 0 := by
  unfold jsToFixed jsRound
  have hfl : ⌊v * 10 ^ d + 1 / 2⌋ = 0 := by
    apply Int.floor_eq_iff.2
    constructor
    · push_cast
      have := mul_nonneg h0 (pow_nonneg (by norm_num : (0 : ℝ) ≤ 10) d)
      linarith
    · push_cast
      linarith
  rw [hfl]
  simp

/-- C2 (amended): for every mean, every `stddev > 0` and every `n ≥ 2`,
every `y` value in the list returned by `normalCurvePoints` is nonnegative
(the density is strictly positive before rounding, but the 6-decimal
rounding of the returned `y` can reach exactly 0 for very flat curves). -/
theorem normalCurvePoints_y_nonneg (mean stddev : ℝ) (n : ℕ)
    (hs : 0 < stddev) (_hn : 2 ≤ n) :
    ∀ p ∈ normalCurvePoints mean stddev n, 0 ≤ p.y := by
  intro p hp
  simp only [normalCurvePoints, List.mem_map, List.mem_range] at hp
  obtain ⟨i, hi, rfl⟩ := hp
  apply jsToFixed_nonneg
  have hsq : 0 < Real.sqrt (2 * Real.pi) := Real.sqrt_pos.2 (by positivity)
  positivity

/-- C2 witness: at mean 0, stddev 1, 100 points, every returned `y` is
nonnegative. -/
theorem normalCurvePoints_y_nonneg_witness :
    ((0 : ℝ) < 1 ∧ 2 ≤ 100) ∧
      ∀ p ∈ normalCurvePoints 0 1 100, 0 ≤ p.y :=
  ⟨⟨by norm_num, by norm_num⟩, normalCurvePoints_y_nonneg 0 1 100 (by norm_num) (by norm_num)⟩

theorem flat_curve_y_eq_zero : ∀ p ∈ normalCurvePoints 0 (10 ^ 7) 3, p.y = 0 := by
  intro p hp
  simp only [normalCurvePoints, List.mem_map, List.mem_range] at hp
  obtain ⟨i, hi, rfl⟩ := hp
  have hsqrt : (1 / 5 : ℝ) < Real.sqrt (2 * Real.pi) :=
    (Real.lt_sqrt (by norm_num)).2 (by nlinarith [Real.pi_gt_three])
  have hspos : (0 : ℝ) < Real.sqrt (2 * Real.pi) := by linarith
  apply jsToFixed_eq_zero
  · positivity
  · set E := Real.exp (-((0 : ℝ) - 3.5 * 10 ^ 7 + (i : ℝ) *
      ((0 + 3.5 * 10 ^ 7 - (0 - 3.5 * 10 ^ 7)) / (((3 : ℕ) : ℝ) - 1)) - 0) ^ 2 /
      (2 * ((10 : ℝ) ^ 7) ^ 2)) with hE
    have hE1 : E ≤ 1 := by
      rw [hE]
      apply Real.exp_le_one_iff.2
      apply div_nonpos_of_nonpos_of_nonneg
      · simp [neg_nonpos]
        positivity
      · positivity
    have hEpos : 0 < E := Real.exp_pos _
    have hcpos : (0 : ℝ) < 1 / (10 ^ 7 * Real.sqrt (2 * Real.pi)) := by positivity
    have hv : 1 / (10 ^ 7 * Real.sqrt (2 * Real.pi)) * E ≤
        1 / (10 ^ 7 * Real.sqrt (2 * Real.pi)) :=
      mul_le_of_le_one_right hcpos.le hE1
    have hcsmall : 1 / (10 ^ 7 * Real.sqrt (2 * Real.pi)) < 1 / (2 * 10 ^ 6) := by
      apply one_div_lt_one_div_of_lt (by norm_num)
      nlinarith
    calc 1 / (10 ^ 7 * Real.sqrt (2 * Real.pi)) * E * 10 ^ 6
        ≤ 1 / (10 ^ 7 * Real.sqrt (2 * Real.pi)) * 10 ^ 6 := by nlinarith
      _ < 1 / (2 * 10 ^ 6) * 10 ^ 6 := by nlinarith
      _ = 1 / 2 := by norm_num

theorem jsToFixed_nonpos {d : ℕ} {v : ℝ} (hv : v ≤ 0) : jsToFixed d v ≤ 0 := by
  unfold jsToFixed jsRound
  apply div_nonpos_of_nonpos_of_nonneg _ (by positivity)
  have h1 : ⌊v * 10 ^ d + 1 / 2⌋ < 1 := by
    apply Int.floor_lt.2
    push_cast
    nlinarith [pow_nonneg (show (0 : ℝ) ≤ 10 by norm_num) d]
  have h2 : ⌊v * 10 ^ d + 1 / 2⌋ ≤ 0 := by omega
  exact_mod_cast h2

theorem neg_stddev_y_nonpos : ∀ p ∈ normalCurvePoints 0 (-1) 3, p.y ≤ 0 := by
  intro p hp
  simp only [normalCurvePoints, List.mem_map, List.mem_range] at hp
  obtain ⟨i, hi, rfl⟩ := hp
  apply jsToFixed_nonpos
  have hspos : (0 : ℝ) < Real.sqrt (2 * Real.pi) := Real.sqrt_pos.2 (by positivity)
  have hc : (1 : ℝ) / ((-1) * Real.sqrt (2 * Real.pi)) ≤ 0 := by
    apply div_nonpos_of_nonneg_of_nonpos (by norm_num)
    nlinarith
  nlinarith [Real.exp_pos (-((0 : ℝ) - 3.5 * (-1) + (i : ℝ) *
    ((0 + 3.5 * (-1) - (0 - 3.5 * (-1))) / (((3 : ℕ) : ℝ) - 1)) - 0) ^ 2 /
    (2 * ((-1) : ℝ) ^ 2))]

/-- C2 counterexample: with mean 0, stddev 10⁷ and 3 points — all finite —
every returned `y` is exactly 0 (the density rounds to 0 at 6 decimals), and
with stddev −1 — also finite — every returned `y` is ≤ 0; in both cases the
`y` values are not strictly positive as the claim states. -/
theorem normalCurvePoints_not_all_pos :
    (¬ ∀ p ∈ normalCurvePoints 0 (10 ^ 7) 3, 0 < p.y) ∧
    (¬ ∀ p ∈ normalCurvePoints 0 (-1) 3, 0 < p.y) := by
  constructor
  · intro hall
    have hne : normalCurvePoints 0 (10 ^ 7) 3 ≠ [] := by
      unfold normalCurvePoints
      simp
      exact ⟨0, by norm_num⟩
    obtain ⟨p, hp⟩ := List.exists_mem_of_ne_nil _ hne
    have h1 := hall p hp
    rw [flat_curve_y_eq_zero p hp] at h1
    exact lt_irrefl 0 h1
  · intro hall
    have hne : normalCurvePoints 0 (-1) 3 ≠ [] := by
      unfold normalCurvePoints
      simp
      exact ⟨0, by norm_num⟩
    obtain ⟨p, hp⟩ := List.exists_mem_of_ne_nil _ hne
    exact absurd (hall p hp) (not_lt.2 (neg_stddev_y_nonpos p hp))

end HumanCurve
